import Mathlib

/-!
Shallow embedding of `modules/logsearch.py` (the chat-log search module of the
expecto-botronum bot) together with proofs about its three command handlers
`logsearch`, `linecount` and `topusers`.

Modelling conventions:
* Python strings are Lean `String`s; per-code-point operations (`split`,
  `lower`, `strip`, lexicographic `<`) are implemented structurally over
  `String.data` so that they compute by kernel reduction.  `lower`/`strip`
  are modelled on their ASCII behaviour (the module only feeds them
  canonicalised identifiers and command arguments).
* The host collaborators (`psclient.toID`, the chatlogger, `getRoom`,
  `sender.can`) are fields of the `BotMessage` environment: the module only
  calls them, it does not implement them.
* A handler invocation is pure: it returns the ordered list of collaborator
  events it performed (`respond`, `respondHTML`, `search`, `getLinecount`)
  plus an optional Python runtime error.  `crash = some e` models an uncaught
  exception propagating out of the handler after the recorded events.
* Python `dict`s are association lists in insertion order with unique keys;
  lookups read the first matching key.
* Timestamps (`datetime.now().timestamp()`) are modelled as integer seconds;
  the handlers only thread them through to the collaborator.
-/

/-- Lexicographic comparison of char lists by code point, the order Python
uses for `str` comparison and hence for `list.sort` on day-key strings. -/
def charListLE : List Char → List Char → Bool
  | [], _ => true
  | _ :: _, [] => false
  | a :: as, b :: bs =>
    if a.toNat < b.toNat then true
    else if b.toNat < a.toNat then false
    else charListLE as bs

/-- Python string `<=` (lexicographic by code point). -/
def pyStrLE (a b : String) : Bool := charListLE a.data b.data

/-- Python `str.lower()`, modelled on its ASCII behaviour. -/
def pyLower (s : String) : String := String.mk (s.data.map Char.toLower)

/-- Python `str.strip()` with no argument: drop leading and trailing
whitespace. -/
def pyTrimChars (cs : List Char) : List Char :=
  ((cs.dropWhile Char.isWhitespace).reverse.dropWhile Char.isWhitespace).reverse

/-- Python `str.strip()` on a `String`. -/
def pyTrim (s : String) : String := String.mk (pyTrimChars s.data)

/-- Python `','.join(parts)`. -/
def pyJoinComma : List String → String
  | [] => ""
  | [x] => x
  | x :: xs => x ++ "," ++ pyJoinComma xs

/-- Python `line.split('|')[0]`: the characters of `line` before the first
pipe, or all of `line` when it contains no pipe. -/
def pyFirstField (line : String) : String :=
  String.mk (line.data.takeWhile (fun c => !(c == '|')))

/-- Value of `digits` read as a decimal numeral. -/
def digitsToNat (cs : List Char) : Nat :=
  cs.foldl (fun acc c => acc * 10 + (c.toNat - 48)) 0

/-- Decimal-numeral parser used by `pyInt`: succeeds on a nonempty all-digit
character list. -/
def pyIntDigits (cs : List Char) : Option Int :=
  if cs ≠ [] ∧ cs.all Char.isDigit then some (Int.ofNat (digitsToNat cs)) else none

/-- Python `int(s)` on a string: strip whitespace, take an optional sign and
then a nonempty run of decimal digits; anything else raises `ValueError`,
modelled as `none`.  (Underscore separators and non-ASCII digits accepted by
CPython are not modelled; the module only ever feeds this user-typed day
counts.) -/
def pyInt (s : String) : Option Int :=
  match pyTrimChars s.data with
  | '+' :: rest => pyIntDigits rest
  | '-' :: rest => (pyIntDigits rest).map Int.neg
  | cs => pyIntDigits cs

/-- The empty string, named so it can be applied without a literal. -/
def emptyStr : String := ""

/-- First-match lookup in an insertion-ordered dict of counts, defaulting to
zero; models reading `users[u]` in `topusers` (keys are unique there). -/
def dictGetNat (d : List (String × Nat)) (k : String) : Nat :=
  match d with
  | [] => 0
  | p :: ds => if p.1 == k then p.2 else dictGetNat ds k

/-- First-match lookup in the day-key → lines dict returned by the
chatlogger; models `resultsDict[day]` (keys are unique dict keys). -/
def dictGetList (d : List (String × List String)) (k : String) : List String :=
  match d with
  | [] => []
  | p :: ds => if p.1 == k then p.2 else dictGetList ds k

/-- The `users[userid] = 1` / `users[userid] += 1` dict update in `topusers`:
increment the first entry with the given key, or append a fresh entry with
count 1. -/
def bump : List (String × Nat) → String → List (String × Nat)
  | [], u => [ (u, 1) ]
  | p :: ds, u => if p.1 == u then (p.1, p.2 + 1) :: ds else p :: bump ds u

/-- One iteration of the tally loop body of `topusers`: extract
`line.split('|')[0]`, skip the line if that field is empty, otherwise bump
its count. -/
def tallyStep (us : List (String × Nat)) (line : String) : List (String × Nat) :=
  if pyFirstField line == emptyStr then us else bump us (pyFirstField line)

/-- The inner `for line in resultsDict[result]` loop of `topusers`. -/
def tallyLines (lines : List String) (us : List (String × Nat)) : List (String × Nat) :=
  lines.foldl tallyStep us

/-- The full `for result in resultsDict` tally of `topusers`, iterating the
raw result mapping in dict order. -/
def tallyAll (rd : List (String × List String)) : List (String × Nat) :=
  rd.foldl (fun us p => tallyLines p.2 us) []

/-- Python `days.sort(reverse=True)` on day-key strings: the stable
descending sort (insertion sort with a total preorder agrees with timsort). -/
def pySortDesc (l : List String) : List String :=
  List.insertionSort (fun a b : String => pyStrLE b a = true) l

/-- Python `sorted(users, key=users.__getitem__, reverse=True)` in
`topusers`: the dict keys stably sorted by descending count. -/
def pySortByCountDesc (users : List (String × Nat)) : List String :=
  List.insertionSort (fun a b : String => dictGetNat users b ≤ dictGetNat users a)
    (users.map Prod.fst)

/-- Maximum buffer length from the source: `102400 - 19 - len("/pminfobox ,")
- len("</details>")`. -/
def MAX_BUF_LEN : Nat := 102400 - 19 - ("/pminfobox ,").length - ("</details>").length

/-- Number of ranked entries kept by `topusers`. -/
def TOPUSERS : Nat := 50

/-- Python runtime errors the module can raise. -/
inductive PyError where
  | unboundLocal (name : String)
  | nameError (name : String)
deriving DecidableEq

/-- Collaborator calls and response emissions a handler performs, in order. -/
inductive Event where
  | respond (text : String)
  | respondHTML (body : String)
  | search (roomID : String) (userID : Option String) (keywords : List String)
      (oldest : Option Int)
  | getLinecount (userID roomID : String) (days : Int)
deriving DecidableEq

/-- Outcome of one handler invocation: the events performed, and the Python
exception (if any) that propagated after them. -/
structure HandlerResult where
  events : List Event
  crash : Option PyError
deriving DecidableEq

/-- The chatlogger collaborator interface consumed by the module. -/
structure Chatlogger where
  search : String → Option String → List String → Option Int →
    List (String × List String)
  getLinecount : String → String → Int → Int
  formatData : String → Bool → String

/-- The message environment a handler receives: parsed arguments, the
connection state (chatlogger, known rooms), the sender's permission
predicate, the host `toID` canonicaliser, the clock and the configured
command character. -/
structure BotMessage where
  arguments : List String
  chatlogger : Option Chatlogger
  rooms : List String
  can : String → String → Bool
  toID : String → String
  now : Int
  commandCharacter : String

/-- The room-resolution collaborator `message.connection.getRoom`. -/
def getRoom (msg : BotMessage) (roomID : String) : Option String :=
  if msg.rooms.contains roomID then some roomID else none

/-- The permission name checked by all three handlers. -/
def searchlogPerm : String := "searchlog"

/-- Response text for a missing chatlogger. -/
def noChatloggerMsg : String := "There is currently no chatlogger loaded."

/-- Response text for a denied `searchlog` permission. -/
def permissionDeniedMsg : String := "Permission denied."

/-- Response text for an unknown room. -/
def invalidRoomMsg (roomID : String) : String := "Invalid room: " ++ roomID

/-- The `topusers` acknowledgment sent before the slow query. -/
def pleaseWaitMsg : String := "Please wait; fetching userstats..."

/-- Usage message of `logsearch`. -/
def logsearchUsage (cc : String) : String :=
  "Usage: ``" ++ cc ++ "logsearch <room>, [optional user], [optional keyword]``."

/-- Usage message of `linecount`. -/
def linecountUsage (cc : String) : String :=
  "Usage: ``" ++ cc ++ "linecount <user>, <room>, [optional number of days]``."

/-- Usage message of `topusers`. -/
def topusersUsage (cc : String) : String :=
  "Usage: ``" ++ cc ++ "topusers <room>, [optional number of days]``."

/-- `message.arguments[i]`, only read under an argument-count guard. -/
def argAt (args : List String) (i : Nat) : String := args.getD i emptyStr

/-- `psclient.toID(message.arguments[1]).lower()` in `logsearch`. -/
def logsearchRoomID (msg : BotMessage) : String :=
  pyLower (msg.toID (argAt msg.arguments 1))

/-- The optional user argument of `logsearch`. -/
def logsearchUserID (msg : BotMessage) : String :=
  if 2 < msg.arguments.length then pyLower (msg.toID (argAt msg.arguments 2))
  else emptyStr

/-- The optional keyword of `logsearch`: remaining arguments rejoined with
commas, stripped and lowercased. -/
def logsearchKeyword (msg : BotMessage) : String :=
  if 3 < msg.arguments.length then pyLower (pyTrim (pyJoinComma (msg.arguments.drop 3)))
  else emptyStr

/-- `psclient.toID(message.arguments[1])` in `linecount`. -/
def linecountUserID (msg : BotMessage) : String := msg.toID (argAt msg.arguments 1)

/-- `psclient.toID(message.arguments[2])` in `linecount`. -/
def linecountRoomID (msg : BotMessage) : String := msg.toID (argAt msg.arguments 2)

/-- `psclient.toID(message.arguments[1])` in `topusers`. -/
def topusersRoomID (msg : BotMessage) : String := msg.toID (argAt msg.arguments 1)

/-- The `try: days = int(arguments[i]) except (IndexError, ValueError):
days = 30` pattern shared by `linecount` (i = 3) and `topusers` (i = 2). -/
def pyDays (args : List String) (i : Nat) : Int :=
  match args.get? i with
  | none => 30
  | some s =>
    match pyInt s with
    | none => 30
    | some n => n

/-- The lookback window `linecount` uses. -/
def linecountDays (msg : BotMessage) : Int := pyDays msg.arguments 3

/-- The lookback window `topusers` uses. -/
def topusersDays (msg : BotMessage) : Int := pyDays msg.arguments 2

/-- `datetime.now().timestamp() - days * 24 * 60 * 60` in `linecount`. -/
def linecountOldest (msg : BotMessage) : Int := msg.now - linecountDays msg * 86400

/-- `datetime.now().timestamp() - days * 24 * 60 * 60` in `topusers`. -/
def topusersOldest (msg : BotMessage) : Int := msg.now - topusersDays msg * 86400

/-- Single-quote character as a string, for building response texts. -/
def squote : String := String.singleton (Char.ofNat 39)

/-- The plain-text summary `linecount` responds with first. -/
def linecountSummary (userID : String) (count : Int) (roomID : String) (days : Int) :
    String :=
  "The user " ++ squote ++ userID ++ squote ++ " had " ++ toString count ++
    " lines in the room " ++ roomID ++ " in the past " ++ toString days ++ " days!"

/-- The `<li>` entries of the per-day list of `linecount`, one per day key in
descending key order. -/
def linecountDetails (rd : List (String × List String)) : List String :=
  (pySortDesc (rd.map Prod.fst)).map
    (fun r => "<li>" ++ r ++ " — <strong>" ++ toString (dictGetList rd r).length ++
      "</strong> lines</li>")

/-- The HTML body `linecount` emits second. -/
def linecountHtml (rd : List (String × List String)) : String :=
  "<details><summary>Linecounts per day</summary><ul>" ++
    String.join (linecountDetails rd) ++ "</ul></details>"

/-- The ranked identifiers of `topusers`: the loop over `sortedUsers` with
the `i > TOPUSERS: break` guard keeps the first `TOPUSERS` of them. -/
def rankedUsers (users : List (String × Nat)) : List String :=
  List.take TOPUSERS (pySortByCountDesc users)

/-- One ranked `<li>` entry of `topusers`. -/
def topusersEntry (users : List (String × Nat)) (u : String) : String :=
  "<li><strong>" ++ u ++ "</strong> — " ++ toString (dictGetNat users u) ++
    " lines</li>"

/-- The ranked `<li>` entries of `topusers`, best count first. -/
def topusersEntries (users : List (String × Nat)) : List String :=
  (rankedUsers users).map (topusersEntry users)

/-- The HTML body `topusers` emits. -/
def topusersHtml (roomID : String) (days : Int) (users : List (String × Nat)) :
    String :=
  "<details><summary>Top " ++ toString TOPUSERS ++ " users in the room " ++ roomID ++
    " in the past " ++ toString days ++ " days</summary><ul>" ++
    String.join (topusersEntries users) ++ "</ul></details>"

/-- Local variable name whose premature read crashes `logsearch`. -/
def localNameHtml : String := "html"

/-- What `logsearch` does after all its guards pass: it issues the search
query and binds the result, but the next statement builds the query summary
with `html.escape(roomID)` — and `html` is a local variable of the function
(it is assigned a list further down), not the imported module, so the read
raises `UnboundLocalError` before anything is emitted.  (The loop below that
line would also read the never-initialised accumulators `attemptedBuf` and
`htmlBuf`.) -/
def logsearchCrash (msg : BotMessage) : HandlerResult :=
  ⟨[ Event.search (logsearchRoomID msg) (some (logsearchUserID msg))
      [ logsearchKeyword msg ] none ],
    some (PyError.unboundLocal localNameHtml)⟩

/-- The `logsearch` handler (`Module.logsearch`). -/
def logsearch (msg : BotMessage) : HandlerResult :=
  if msg.arguments.length < 2 then
    ⟨[ Event.respond (logsearchUsage msg.commandCharacter) ], none⟩
  else
    match msg.chatlogger with
    | none => ⟨[ Event.respond noChatloggerMsg ], none⟩
    | some _ =>
      if (getRoom msg (logsearchRoomID msg)).isNone then
        ⟨[ Event.respond (invalidRoomMsg (logsearchRoomID msg)) ], none⟩
      else if msg.can searchlogPerm (logsearchRoomID msg) = false then
        ⟨[ Event.respond permissionDeniedMsg ], none⟩
      else
        logsearchCrash msg

/-- The event list of a `linecount` invocation whose guards all passed. -/
def linecountSuccess (msg : BotMessage) (logger : Chatlogger) : HandlerResult :=
  ⟨[ Event.getLinecount (linecountUserID msg) (linecountRoomID msg) (linecountDays msg),
     Event.respond (linecountSummary (linecountUserID msg)
       (logger.getLinecount (linecountUserID msg) (linecountRoomID msg)
         (linecountDays msg))
       (linecountRoomID msg) (linecountDays msg)),
     Event.search (linecountRoomID msg) (some (linecountUserID msg)) []
       (some (linecountOldest msg)),
     Event.respondHTML (linecountHtml (logger.search (linecountRoomID msg)
       (some (linecountUserID msg)) [] (some (linecountOldest msg)))) ], none⟩

/-- The `linecount` handler (`Module.linecount`). -/
def linecount (msg : BotMessage) : HandlerResult :=
  if msg.arguments.length < 3 then
    ⟨[ Event.respond (linecountUsage msg.commandCharacter) ], none⟩
  else
    match msg.chatlogger with
    | none => ⟨[ Event.respond noChatloggerMsg ], none⟩
    | some logger =>
      if (getRoom msg (linecountRoomID msg)).isNone then
        ⟨[ Event.respond (invalidRoomMsg (linecountRoomID msg)) ], none⟩
      else if msg.can searchlogPerm (linecountRoomID msg) = false then
        ⟨[ Event.respond permissionDeniedMsg ], none⟩
      else
        linecountSuccess msg logger

/-- The event list of a `topusers` invocation whose guards all passed. -/
def topusersSuccess (msg : BotMessage) (logger : Chatlogger) : HandlerResult :=
  ⟨[ Event.respond pleaseWaitMsg,
     Event.search (topusersRoomID msg) none [] (some (topusersOldest msg)),
     Event.respondHTML (topusersHtml (topusersRoomID msg) (topusersDays msg)
       (tallyAll (logger.search (topusersRoomID msg) none []
         (some (topusersOldest msg))))) ], none⟩

/-- The `topusers` handler (`Module.topusers`). -/
def topusers (msg : BotMessage) : HandlerResult :=
  if msg.arguments.length < 2 then
    ⟨[ Event.respond (topusersUsage msg.commandCharacter) ], none⟩
  else
    match msg.chatlogger with
    | none => ⟨[ Event.respond noChatloggerMsg ], none⟩
    | some logger =>
      if (getRoom msg (topusersRoomID msg)).isNone then
        ⟨[ Event.respond (invalidRoomMsg (topusersRoomID msg)) ], none⟩
      else if msg.can searchlogPerm (topusersRoomID msg) = false then
        ⟨[ Event.respond permissionDeniedMsg ], none⟩
      else
        topusersSuccess msg logger

/-- Whether an event is a response emission (`respond`/`respondHTML`). -/
def isEmission : Event → Bool
  | Event.respond _ => true
  | Event.respondHTML _ => true
  | Event.search _ _ _ _ => false
  | Event.getLinecount _ _ _ => false

/-- The response emissions among a handler's events, in order. -/
def emissions (evs : List Event) : List Event := evs.filter isEmission

/-- Whether an event is a chatlogger query (`search`/`getLinecount`). -/
def isQuery : Event → Bool
  | Event.search _ _ _ _ => true
  | Event.getLinecount _ _ _ => true
  | Event.respond _ => false
  | Event.respondHTML _ => false

/-- The chatlogger queries among a handler's events, in order. -/
def queries (evs : List Event) : List Event := evs.filter isQuery

/-- Identity canonicaliser used for concrete test environments (the host
`toID` is a collaborator; any function is admissible). -/
def exToID : String → String := fun s => s

/-- Day key of the single-day ranking example. -/
def exDayTU : String := "day"

/-- The example lines of the `topusers` ranking example. -/
def exLinesTU : List String := [ "alice|hi", "bob|yo", "alice|hey" ]

/-- The example result set of the `topusers` ranking example. -/
def exRDTU : List (String × List String) := [ (exDayTU, exLinesTU) ]

/-- Identifier `alice` of the examples. -/
def aliceId : String := "alice"

/-- Identifier `bob` of the examples. -/
def bobId : String := "bob"

/-- Expected first ranked entry of the `topusers` example. -/
def exAliceEntry : String := "<li><strong>alice</strong> — 2 lines</li>"

/-- Expected second ranked entry of the `topusers` example. -/
def exBobEntry : String := "<li><strong>bob</strong> — 1 lines</li>"

/-- A chatlogger stub whose queries return the ranking example data. -/
def exLogger : Chatlogger :=
  { search := fun _ _ _ _ => exRDTU, getLinecount := fun _ _ _ => 8,
    formatData := fun s _ => s }

/-- More recent day key of the `linecount` example. -/
def exDayNew : String := "2024-01-02"

/-- Older day key of the `linecount` example. -/
def exDayOld : String := "2024-01-01"

/-- The `linecount` example result set: the older day (5 lines) is listed
first in raw dict order, the newer day (3 lines) second. -/
def exRDLC : List (String × List String) :=
  [ (exDayOld, [ "a1", "a2", "a3", "a4", "a5" ]),
    (exDayNew, [ "b1", "b2", "b3" ]) ]

/-- A chatlogger stub whose queries return the `linecount` example data. -/
def exLoggerLC : Chatlogger :=
  { search := fun _ _ _ _ => exRDLC, getLinecount := fun _ _ _ => 8,
    formatData := fun s _ => s }

/-- Expected per-day entry for the newer example day. -/
def exEntryNew : String := "<li>2024-01-02 — <strong>3</strong> lines</li>"

/-- Expected per-day entry for the older example day. -/
def exEntryOld : String := "<li>2024-01-01 — <strong>5</strong> lines</li>"

/-- A fully valid `linecount` message whose sender holds the permission. -/
def exMsgC7 : BotMessage :=
  { arguments := [ "linecount", "annika", "testroom", "7" ],
    chatlogger := some exLoggerLC, rooms := [ "testroom" ],
    can := fun _ _ => true, toID := exToID, now := 1700000000,
    commandCharacter := "-" }

/-- An unparsable day-count argument. -/
def exBadDays : String := "soon"

/-- A valid `linecount` message whose day-count argument is unparsable. -/
def exMsgC6 : BotMessage :=
  { arguments := [ "linecount", "annika", "testroom", exBadDays ],
    chatlogger := some exLogger, rooms := [ "testroom" ],
    can := fun _ _ => true, toID := exToID, now := 1700000000,
    commandCharacter := "-" }

/-- A message whose sender lacks `searchlog` everywhere; its argument list
resolves to known rooms for all three handlers. -/
def exMsgC5 : BotMessage :=
  { arguments := [ "cmd", "aroom", "broom" ], chatlogger := some exLogger,
    rooms := [ "aroom", "broom" ], can := fun _ _ => false, toID := exToID,
    now := 0, commandCharacter := "-" }

/-- A fully valid `logsearch` invocation (room `lobby`). -/
def exMsgC1 : BotMessage :=
  { arguments := [ "logsearch", "lobby" ], chatlogger := some exLogger,
    rooms := [ "lobby" ], can := fun _ _ => true, toID := exToID, now := 0,
    commandCharacter := "-" }

/-- A fully valid `logsearch` invocation (room `staff`). -/
def exMsgC2 : BotMessage :=
  { arguments := [ "logsearch", "staff" ], chatlogger := some exLogger,
    rooms := [ "staff" ], can := fun _ _ => true, toID := exToID, now := 0,
    commandCharacter := "-" }

/-- A chatlogger stub returning a three-day result set. -/
def exLoggerDays : Chatlogger :=
  { search := fun _ _ _ _ =>
      [ ("2023-05-01", [ "u|x" ]), ("2023-05-03", [ "u|y" ]),
        ("2023-05-02", [ "u|z" ]) ],
    getLinecount := fun _ _ _ => 3, formatData := fun s _ => s }

/-- A fully valid `logsearch` invocation against a multi-day result set. -/
def exMsgC3 : BotMessage :=
  { arguments := [ "logsearch", "gameroom" ], chatlogger := some exLoggerDays,
    rooms := [ "gameroom" ], can := fun _ _ => true, toID := exToID, now := 0,
    commandCharacter := "-" }

/-- A fully valid `logsearch` invocation (room `artroom`). -/
def exMsgC8 : BotMessage :=
  { arguments := [ "logsearch", "artroom" ], chatlogger := some exLoggerDays,
    rooms := [ "artroom" ], can := fun _ _ => true, toID := exToID, now := 0,
    commandCharacter := "-" }

/-- A line with no pipe character. -/
def exNoPipeLine : String := "alicehi"

/-- First order of the shared multiset of lines for the order-insensitivity
example. -/
def exRD10a : List (String × List String) :=
  [ ("d1", [ "alice|hi", "bob|yo" ]), ("d2", [ "alice|hey" ]) ]

/-- Second order of the shared multiset of lines (days renamed, lines
redistributed). -/
def exRD10b : List (String × List String) :=
  [ ("x", [ "alice|hey", "alice|hi" ]), ("y", [ "bob|yo" ]) ]

/-- Totality of the Python lexicographic comparison. -/
theorem charListLE_total : ∀ a b : List Char, charListLE a b = true ∨ charListLE b a = true := by
  intro a
  induction a with
  | nil => intro b; left; rfl
  | cons x xs ih =>
    intro b
    cases b with
    | nil => right; rfl
    | cons y ys =>
      simp only [charListLE]
      rcases Nat.lt_trichotomy x.toNat y.toNat with h | h | h
      · left; simp [h]
      · rcases ih ys with h2 | h2
        · left; simp [h, h2, Nat.lt_irrefl]
        · right; simp [h, h2, Nat.lt_irrefl]
      · right; simp [h, Nat.lt_asymm h]

/-- Transitivity of the Python lexicographic comparison. -/
theorem charListLE_trans :
    ∀ a b c : List Char, charListLE a b = true → charListLE b c = true →
      charListLE a c = true := by
  intro a
  induction a with
  | nil => intro b c _ _; rfl
  | cons x xs ih =>
    intro b c hab hbc
    cases b with
    | nil => exact absurd hab (by simp [charListLE])
    | cons y ys =>
      cases c with
      | nil => exact absurd hbc (by simp [charListLE])
      | cons z zs =>
        simp only [charListLE] at hab hbc ⊢
        split at hab
        · rename_i hxy
          split at hbc
          · rename_i hyz
            rw [if_pos (Nat.lt_trans hxy hyz)]
          · rename_i hyz
            split at hbc
            · exact absurd hbc (by simp)
            · rename_i hzy
              have hyez : y.toNat = z.toNat := by omega
              rw [if_pos (hyez ▸ hxy)]
        · rename_i hxy
          split at hab
          · exact absurd hab (by simp)
          · rename_i hyx
            have hxey : x.toNat = y.toNat := by omega
            split at hbc
            · rename_i hyz
              rw [if_pos (by omega : x.toNat < z.toNat)]
            · rename_i hyz
              split at hbc
              · exact absurd hbc (by simp)
              · rename_i hzy
                rw [if_neg (by omega : ¬ x.toNat < z.toNat),
                  if_neg (by omega : ¬ z.toNat < x.toNat)]
                exact ih ys zs hab hbc

/-- `days.sort(reverse=True)` yields a list that is pairwise descending
(every earlier key is lexicographically at least every later key). -/
theorem pySortDesc_sorted (l : List String) :
    List.Sorted (fun a b : String => pyStrLE b a = true) (pySortDesc l) := by
  haveI : IsTotal String (fun a b : String => pyStrLE b a = true) :=
    ⟨fun a b => charListLE_total b.data a.data⟩
  haveI : IsTrans String (fun a b : String => pyStrLE b a = true) :=
    ⟨fun a b c h1 h2 => charListLE_trans c.data b.data a.data h2 h1⟩
  exact List.sorted_insertionSort _ l

/-- `days.sort(reverse=True)` permutes the day keys. -/
theorem pySortDesc_perm (l : List String) : List.Perm (pySortDesc l) l :=
  List.perm_insertionSort _ l

/-- `sorted(users, key=users.__getitem__, reverse=True)` is pairwise
non-increasing in looked-up counts. -/
theorem pySortByCountDesc_sorted (users : List (String × Nat)) :
    List.Sorted (fun a b : String => dictGetNat users b ≤ dictGetNat users a)
      (pySortByCountDesc users) := by
  haveI : IsTotal String (fun a b : String => dictGetNat users b ≤ dictGetNat users a) :=
    ⟨fun a b => le_total (dictGetNat users b) (dictGetNat users a)⟩
  haveI : IsTrans String (fun a b : String => dictGetNat users b ≤ dictGetNat users a) :=
    ⟨fun a b c h1 h2 => le_trans h2 h1⟩
  exact List.sorted_insertionSort _ _

/-- Bumping a key increments exactly that key's count. -/
theorem bump_self (d : List (String × Nat)) (u : String) :
    dictGetNat (bump d u) u = dictGetNat d u + 1 := by
  induction d with
  | nil => simp [bump, dictGetNat]
  | cons p ds ih =>
    by_cases h : p.1 == u
    · simp [bump, dictGetNat, h]
    · simp [bump, dictGetNat, h, ih]

/-- Bumping a key leaves every other key's count unchanged. -/
theorem bump_other (d : List (String × Nat)) (u v : String) (h : (v == u) = false) :
    dictGetNat (bump d v) u = dictGetNat d u := by
  induction d with
  | nil => simp [bump, dictGetNat, h]
  | cons p ds ih =>
    by_cases h2 : p.1 == v
    · have h3 : (p.1 == u) = false := by
        have he : p.1 = v := eq_of_beq h2
        rw [he]; exact h
      simp [bump, dictGetNat, h2, h3]
    · simp [bump, dictGetNat, h2, ih]

/-- Running the tally loop over a line list adds, to each nonempty
identifier, the number of lines whose leading pipe-delimited field is that
identifier; the empty identifier is never tallied. -/
theorem tallyLines_lookup (u : String) :
    ∀ (lines : List String) (us : List (String × Nat)),
      dictGetNat (tallyLines lines us) u =
        dictGetNat us u +
          (if u = emptyStr then 0
           else lines.countP (fun l => pyFirstField l == u)) := by
  intro lines
  induction lines with
  | nil =>
    intro us
    by_cases hu : u = emptyStr <;> simp [tallyLines, hu]
  | cons l ls ih =>
    intro us
    have hstep : tallyLines (l :: ls) us = tallyLines ls (tallyStep us l) := rfl
    rw [hstep, ih]
    by_cases hf : pyFirstField l == emptyStr
    · have hs : tallyStep us l = us := by simp [tallyStep, hf]
      rw [hs]
      by_cases hu : u = emptyStr
      · simp [hu]
      · have hne : (pyFirstField l == u) = false := by
          rw [eq_of_beq hf]
          exact beq_eq_false_iff_ne.mpr fun he => hu he.symm
        simp [hu, List.countP_cons, hne]
    · have hf2 : (pyFirstField l == emptyStr) = false := by
        simpa using hf
      have hs : tallyStep us l = bump us (pyFirstField l) := by simp [tallyStep, hf2]
      rw [hs]
      by_cases hu : u = emptyStr
      · have hne : (pyFirstField l == u) = false := by rw [hu]; exact hf2
        rw [bump_other us u (pyFirstField l) hne]
        simp [hu]
      · by_cases he : pyFirstField l == u
        · rw [eq_of_beq he, bump_self]
          simp [hu, List.countP_cons, he]
          omega
        · have he2 : (pyFirstField l == u) = false := by simpa using he
          rw [bump_other us u (pyFirstField l) he2]
          simp [hu, List.countP_cons, he2]

/-- Folding the tally over the day-keyed mapping is folding it over the
concatenation of all the day line lists. -/
theorem tallyAll_eq_flat :
    ∀ (rd : List (String × List String)) (us : List (String × Nat)),
      rd.foldl (fun us p => tallyLines p.2 us) us =
        tallyLines (rd.flatMap Prod.snd) us := by
  intro rd
  induction rd with
  | nil => intro us; rfl
  | cons p rest ih =>
    intro us
    have h1 : (p :: rest).flatMap Prod.snd = p.2 ++ rest.flatMap Prod.snd := rfl
    rw [h1]
    show rest.foldl (fun us p => tallyLines p.2 us) (tallyLines p.2 us) =
      tallyLines (p.2 ++ rest.flatMap Prod.snd) us
    rw [ih]
    unfold tallyLines
    rw [List.foldl_append]

/-- Closed form of the `topusers` tally: a nonempty identifier is counted
once per line whose leading field equals it (over all days in raw dict
order), and the empty identifier is never present. -/
theorem dictGetNat_tallyAll (rd : List (String × List String)) (u : String) :
    dictGetNat (tallyAll rd) u =
      if u = emptyStr then 0
      else (rd.flatMap Prod.snd).countP (fun l => pyFirstField l == u) := by
  unfold tallyAll
  rw [tallyAll_eq_flat, tallyLines_lookup]
  simp [dictGetNat]

/-- When all four guards of `linecount` pass, the handler performs exactly
the success event sequence. -/
theorem linecount_eq_success (msg : BotMessage) (logger : Chatlogger)
    (hlog : msg.chatlogger = some logger) (hargs : 3 ≤ msg.arguments.length)
    (hroom : msg.rooms.contains (linecountRoomID msg) = true)
    (hcan : msg.can searchlogPerm (linecountRoomID msg) = true) :
    linecount msg = linecountSuccess msg logger := by
  simp only [linecount, hlog]
  rw [if_neg (by omega : ¬ msg.arguments.length < 3)]
  rw [if_neg (by simp [getRoom]; simpa using hroom)]
  rw [if_neg (by simp [hcan])]

/-- When all four guards of `topusers` pass, the handler performs exactly
the success event sequence. -/
theorem topusers_eq_success (msg : BotMessage) (logger : Chatlogger)
    (hlog : msg.chatlogger = some logger) (hargs : 2 ≤ msg.arguments.length)
    (hroom : msg.rooms.contains (topusersRoomID msg) = true)
    (hcan : msg.can searchlogPerm (topusersRoomID msg) = true) :
    topusers msg = topusersSuccess msg logger := by
  simp only [topusers, hlog]
  rw [if_neg (by omega : ¬ msg.arguments.length < 2)]
  rw [if_neg (by simp [getRoom]; simpa using hroom)]
  rw [if_neg (by simp [hcan])]

/-- When all four guards of `logsearch` pass, the handler issues the search
query and then crashes on the unbound local `html`. -/
theorem logsearch_eq_crash (msg : BotMessage) (logger : Chatlogger)
    (hlog : msg.chatlogger = some logger) (hargs : 2 ≤ msg.arguments.length)
    (hroom : msg.rooms.contains (logsearchRoomID msg) = true)
    (hcan : msg.can searchlogPerm (logsearchRoomID msg) = true) :
    logsearch msg = logsearchCrash msg := by
  simp only [logsearch, hlog]
  rw [if_neg (by omega : ¬ msg.arguments.length < 2)]
  rw [if_neg (by simp [getRoom]; simpa using hroom)]
  rw [if_neg (by simp [hcan])]

/-- A denied `searchlog` permission makes `logsearch` return the denial
response at once. -/
theorem logsearch_denied (msg : BotMessage) (logger : Chatlogger)
    (hlog : msg.chatlogger = some logger) (hargs : 2 ≤ msg.arguments.length)
    (hroom : msg.rooms.contains (logsearchRoomID msg) = true)
    (hcan : msg.can searchlogPerm (logsearchRoomID msg) = false) :
    logsearch msg = ⟨[ Event.respond permissionDeniedMsg ], none⟩ := by
  simp only [logsearch, hlog]
  rw [if_neg (by omega : ¬ msg.arguments.length < 2)]
  rw [if_neg (by simp [getRoom]; simpa using hroom)]
  rw [if_pos hcan]

/-- A denied `searchlog` permission makes `linecount` return the denial
response at once. -/
theorem linecount_denied (msg : BotMessage) (logger : Chatlogger)
    (hlog : msg.chatlogger = some logger) (hargs : 3 ≤ msg.arguments.length)
    (hroom : msg.rooms.contains (linecountRoomID msg) = true)
    (hcan : msg.can searchlogPerm (linecountRoomID msg) = false) :
    linecount msg = ⟨[ Event.respond permissionDeniedMsg ], none⟩ := by
  simp only [linecount, hlog]
  rw [if_neg (by omega : ¬ msg.arguments.length < 3)]
  rw [if_neg (by simp [getRoom]; simpa using hroom)]
  rw [if_pos hcan]

/-- A denied `searchlog` permission makes `topusers` return the denial
response at once, before even the please-wait acknowledgment. -/
theorem topusers_denied (msg : BotMessage) (logger : Chatlogger)
    (hlog : msg.chatlogger = some logger) (hargs : 2 ≤ msg.arguments.length)
    (hroom : msg.rooms.contains (topusersRoomID msg) = true)
    (hcan : msg.can searchlogPerm (topusersRoomID msg) = false) :
    topusers msg = ⟨[ Event.respond permissionDeniedMsg ], none⟩ := by
  simp only [topusers, hlog]
  rw [if_neg (by omega : ¬ msg.arguments.length < 2)]
  rw [if_neg (by simp [getRoom]; simpa using hroom)]
  rw [if_pos hcan]

/-- A pipe-free character list is its own first field. -/
theorem takeWhile_no_pipe (cs : List Char) (h : '|' ∉ cs) :
    cs.takeWhile (fun c => !(c == '|')) = cs := by
  induction cs with
  | nil => rfl
  | cons c cs ih =>
    have hc : ¬ c = '|' := fun he => h (he ▸ List.mem_cons_self c cs)
    have hcs : '|' ∉ cs := fun hm => h (List.mem_cons_of_mem c hm)
    simp [List.takeWhile_cons, hc, ih hcs]

/-- The first pipe-delimited field is empty exactly on the empty line and on
lines starting with a pipe. -/
theorem takeWhile_pipe_empty_iff (cs : List Char) :
    cs.takeWhile (fun c => !(c == '|')) = [] ↔ (cs = [] ∨ cs.head? = some '|') := by
  cases cs with
  | nil => simp
  | cons c cs =>
    by_cases hc : c = '|'
    · subst hc
      simp [List.takeWhile_cons]
    · simp [List.takeWhile_cons, hc]

/-- A packed character list is the empty string exactly when the list is
empty. -/
theorem stringMk_eq_empty_iff (cs : List Char) : String.mk cs = emptyStr ↔ cs = [] := by
  have he : emptyStr = String.mk [] := rfl
  rw [he]
  exact ⟨fun h => by injection h, fun h => by rw [h]⟩

/-- C4: in `topusers`, the tally counts every line under its leading
pipe-delimited field and skips lines whose extracted identifier is empty;
the ranked output has at most `TOPUSERS` (= 50) entries and their counts are
non-increasing from first to last; on the example lines `alice|hi`,
`bob|yo`, `alice|hey` the tally is alice ↦ 2, bob ↦ 1 and the ranking lists
the alice — 2 lines entry before the bob — 1 lines entry. -/
theorem c4_topusers_tally_and_ranking :
    (∀ (rd : List (String × List String)) (u : String), u ≠ emptyStr →
        dictGetNat (tallyAll rd) u =
          (rd.flatMap Prod.snd).countP (fun l => pyFirstField l == u)) ∧
    (∀ users : List (String × Nat), (topusersEntries users).length ≤ TOPUSERS) ∧
    (∀ users : List (String × Nat),
        List.Chain' (fun a b : Nat => b ≤ a)
          ((rankedUsers users).map (dictGetNat users))) ∧
    tallyAll exRDTU = [ (aliceId, 2), (bobId, 1) ] ∧
    topusersEntries (tallyAll exRDTU) = [ exAliceEntry, exBobEntry ] := by
  refine ⟨?_, ?_, ?_, by decide, by decide⟩
  · intro rd u hu
    rw [dictGetNat_tallyAll, if_neg hu]
  · intro users
    simp only [topusersEntries, List.length_map, rankedUsers, List.length_take]
    exact Nat.min_le_left _ _
  · intro users
    have hs : List.Pairwise
        (fun a b : String => dictGetNat users b ≤ dictGetNat users a)
        (pySortByCountDesc users) := pySortByCountDesc_sorted users
    have hs2 : List.Pairwise
        (fun a b : String => dictGetNat users b ≤ dictGetNat users a)
        (rankedUsers users) := hs.sublist (List.take_sublist _ _)
    exact (List.pairwise_map.mpr hs2).chain'

/-- Witness for C4: the tally/count identity and the entry bound evaluated
at the example data. -/
theorem c4_witness :
    dictGetNat (tallyAll exRDTU) aliceId =
      (exRDTU.flatMap Prod.snd).countP (fun l => pyFirstField l == aliceId) ∧
    (topusersEntries (tallyAll exRDTU)).length ≤ TOPUSERS :=
  ⟨c4_topusers_tally_and_ranking.1 exRDTU aliceId (by decide),
   c4_topusers_tally_and_ranking.2.1 (tallyAll exRDTU)⟩

/-- C5: in every handler, a sender lacking the `searchlog` permission for
the resolved room gets the permission-denied response and no chatlogger
query (`search` or `getLinecount`) is issued. -/
theorem c5_permission_short_circuit (msg : BotMessage) (logger : Chatlogger)
    (hlog : msg.chatlogger = some logger) :
    (2 ≤ msg.arguments.length →
      msg.rooms.contains (logsearchRoomID msg) = true →
      msg.can searchlogPerm (logsearchRoomID msg) = false →
      logsearch msg = ⟨[ Event.respond permissionDeniedMsg ], none⟩ ∧
        queries (logsearch msg).events = []) ∧
    (3 ≤ msg.arguments.length →
      msg.rooms.contains (linecountRoomID msg) = true →
      msg.can searchlogPerm (linecountRoomID msg) = false →
      linecount msg = ⟨[ Event.respond permissionDeniedMsg ], none⟩ ∧
        queries (linecount msg).events = []) ∧
    (2 ≤ msg.arguments.length →
      msg.rooms.contains (topusersRoomID msg) = true →
      msg.can searchlogPerm (topusersRoomID msg) = false →
      topusers msg = ⟨[ Event.respond permissionDeniedMsg ], none⟩ ∧
        queries (topusers msg).events = []) := by
  refine ⟨fun h1 h2 h3 => ?_, fun h1 h2 h3 => ?_, fun h1 h2 h3 => ?_⟩
  · have he := logsearch_denied msg logger hlog h1 h2 h3
    exact ⟨he, by rw [he]; rfl⟩
  · have he := linecount_denied msg logger hlog h1 h2 h3
    exact ⟨he, by rw [he]; rfl⟩
  · have he := topusers_denied msg logger hlog h1 h2 h3
    exact ⟨he, by rw [he]; rfl⟩

/-- Witness for C5: all three handlers deny the permissionless sender of
`exMsgC5` with a single response and no query. -/
theorem c5_witness :
    logsearch exMsgC5 = ⟨[ Event.respond permissionDeniedMsg ], none⟩ ∧
    linecount exMsgC5 = ⟨[ Event.respond permissionDeniedMsg ], none⟩ ∧
    topusers exMsgC5 = ⟨[ Event.respond permissionDeniedMsg ], none⟩ := by
  have h := c5_permission_short_circuit exMsgC5 exLogger rfl
  exact ⟨(h.1 (by decide) (by decide) (by decide)).1,
         (h.2.1 (by decide) (by decide) (by decide)).1,
         (h.2.2 (by decide) (by decide) (by decide)).1⟩

/-- C6: for `linecount` and `topusers` the lookback window comes from the
optional days argument: an absent or unparsable argument yields 30, a
parsed integer is used as-is, and parsing failure never produces an error
response — under the normal guards the handlers still run to their success
emissions. -/
theorem c6_days_parsing :
    (∀ msg : BotMessage, msg.arguments.get? 3 = none → linecountDays msg = 30) ∧
    (∀ (msg : BotMessage) (s : String), msg.arguments.get? 3 = some s →
      pyInt s = none → linecountDays msg = 30) ∧
    (∀ (msg : BotMessage) (s : String) (n : Int), msg.arguments.get? 3 = some s →
      pyInt s = some n → linecountDays msg = n) ∧
    (∀ msg : BotMessage, msg.arguments.get? 2 = none → topusersDays msg = 30) ∧
    (∀ (msg : BotMessage) (s : String), msg.arguments.get? 2 = some s →
      pyInt s = none → topusersDays msg = 30) ∧
    (∀ (msg : BotMessage) (s : String) (n : Int), msg.arguments.get? 2 = some s →
      pyInt s = some n → topusersDays msg = n) ∧
    (∀ (msg : BotMessage) (logger : Chatlogger), msg.chatlogger = some logger →
      3 ≤ msg.arguments.length → msg.rooms.contains (linecountRoomID msg) = true →
      msg.can searchlogPerm (linecountRoomID msg) = true →
      linecount msg = linecountSuccess msg logger) ∧
    (∀ (msg : BotMessage) (logger : Chatlogger), msg.chatlogger = some logger →
      2 ≤ msg.arguments.length → msg.rooms.contains (topusersRoomID msg) = true →
      msg.can searchlogPerm (topusersRoomID msg) = true →
      topusers msg = topusersSuccess msg logger) := by
  refine ⟨?_, ?_, ?_, ?_, ?_, ?_, ?_, ?_⟩
  · intro msg h
    rw [List.get?_eq_getElem?] at h
    simp [linecountDays, pyDays, h]
  · intro msg s h1 h2
    rw [List.get?_eq_getElem?] at h1
    simp [linecountDays, pyDays, h1, h2]
  · intro msg s n h1 h2
    rw [List.get?_eq_getElem?] at h1
    simp [linecountDays, pyDays, h1, h2]
  · intro msg h
    rw [List.get?_eq_getElem?] at h
    simp [topusersDays, pyDays, h]
  · intro msg s h1 h2
    rw [List.get?_eq_getElem?] at h1
    simp [topusersDays, pyDays, h1, h2]
  · intro msg s n h1 h2
    rw [List.get?_eq_getElem?] at h1
    simp [topusersDays, pyDays, h1, h2]
  · exact fun msg logger hlog h1 h2 h3 => linecount_eq_success msg logger hlog h1 h2 h3
  · exact fun msg logger hlog h1 h2 h3 => topusers_eq_success msg logger hlog h1 h2 h3

/-- Witness for C6: the unparsable day count of `exMsgC6` falls back to 30
and the handler still reaches its success emissions. -/
theorem c6_witness :
    linecountDays exMsgC6 = 30 ∧
    linecount exMsgC6 = linecountSuccess exMsgC6 exLogger := by
  refine ⟨c6_days_parsing.2.1 exMsgC6 exBadDays rfl (by decide), ?_⟩
  exact c6_days_parsing.2.2.2.2.2.2.1 exMsgC6 exLogger rfl (by decide) (by decide)
    (by decide)

/-- C7: on its success path, `linecount` makes exactly two response
emissions in order — the plain-text summary, then one HTML list — and the
per-day entries follow the day keys in strictly descending key order. -/
theorem c7_linecount_two_emissions (msg : BotMessage) (logger : Chatlogger)
    (hlog : msg.chatlogger = some logger) (hargs : 3 ≤ msg.arguments.length)
    (hroom : msg.rooms.contains (linecountRoomID msg) = true)
    (hcan : msg.can searchlogPerm (linecountRoomID msg) = true)
    (hnd : ((logger.search (linecountRoomID msg) (some (linecountUserID msg)) []
        (some (linecountOldest msg))).map Prod.fst).Nodup) :
    emissions (linecount msg).events =
      [ Event.respond (linecountSummary (linecountUserID msg)
          (logger.getLinecount (linecountUserID msg) (linecountRoomID msg)
            (linecountDays msg)) (linecountRoomID msg) (linecountDays msg)),
        Event.respondHTML (linecountHtml (logger.search (linecountRoomID msg)
          (some (linecountUserID msg)) [] (some (linecountOldest msg)))) ] ∧
    List.Chain' (fun a b : String => pyStrLE b a = true ∧ a ≠ b)
      (pySortDesc ((logger.search (linecountRoomID msg)
        (some (linecountUserID msg)) [] (some (linecountOldest msg))).map
        Prod.fst)) := by
  constructor
  · rw [linecount_eq_success msg logger hlog hargs hroom hcan]
    rfl
  · have hs : List.Pairwise (fun a b : String => pyStrLE b a = true)
        (pySortDesc ((logger.search (linecountRoomID msg)
          (some (linecountUserID msg)) [] (some (linecountOldest msg))).map
          Prod.fst)) := pySortDesc_sorted _
    have hnd2 : (pySortDesc ((logger.search (linecountRoomID msg)
        (some (linecountUserID msg)) [] (some (linecountOldest msg))).map
        Prod.fst)).Nodup := (pySortDesc_perm _).symm.nodup hnd
    exact (hs.and hnd2).chain'

/-- Witness for C7: on `exMsgC7` the two emissions appear in order and the
newer example day is listed before the older one. -/
theorem c7_witness :
    emissions (linecount exMsgC7).events =
      [ Event.respond (linecountSummary (linecountUserID exMsgC7)
          (exLoggerLC.getLinecount (linecountUserID exMsgC7)
            (linecountRoomID exMsgC7) (linecountDays exMsgC7))
          (linecountRoomID exMsgC7) (linecountDays exMsgC7)),
        Event.respondHTML (linecountHtml (exLoggerLC.search
          (linecountRoomID exMsgC7) (some (linecountUserID exMsgC7)) []
          (some (linecountOldest exMsgC7)))) ] ∧
    linecountDetails exRDLC = [ exEntryNew, exEntryOld ] := by
  refine ⟨(c7_linecount_two_emissions exMsgC7 exLoggerLC rfl (by decide)
    (by decide) (by decide) (by decide)).1, by decide⟩

/-- C9: in `topusers`, a line with no pipe character is not skipped — its
first pipe-delimited field is the whole line, which gets tallied; the
extracted field is empty exactly for the empty line and lines starting with
a pipe, and only those are excluded. -/
theorem c9_no_pipe_line_tallied (line : String) :
    ('|' ∉ line.data → pyFirstField line = line) ∧
    (pyFirstField line = emptyStr ↔
      (line = emptyStr ∨ line.data.head? = some '|')) ∧
    ('|' ∉ line.data → line ≠ emptyStr →
      ∀ us : List (String × Nat),
        dictGetNat (tallyStep us line) line = dictGetNat us line + 1) := by
  obtain ⟨cs⟩ := line
  refine ⟨?_, ?_, ?_⟩
  · intro hp
    show String.mk (cs.takeWhile (fun c => !(c == '|'))) = String.mk cs
    rw [takeWhile_no_pipe cs hp]
  · show String.mk (cs.takeWhile (fun c => !(c == '|'))) = emptyStr ↔ _
    rw [stringMk_eq_empty_iff, stringMk_eq_empty_iff]
    exact takeWhile_pipe_empty_iff cs
  · intro hp hne us
    have hfield : pyFirstField (String.mk cs) = String.mk cs := by
      show String.mk (cs.takeWhile (fun c => !(c == '|'))) = String.mk cs
      rw [takeWhile_no_pipe cs hp]
    have hne2 : (pyFirstField (String.mk cs) == emptyStr) = false := by
      rw [hfield]
      exact beq_eq_false_iff_ne.mpr hne
    unfold tallyStep
    rw [hne2]
    simp only [Bool.false_eq_true, if_false]
    rw [hfield, bump_self]

/-- Witness for C9: the pipe-free line `alicehi` is tallied whole. -/
theorem c9_witness :
    pyFirstField exNoPipeLine = exNoPipeLine ∧
    dictGetNat (tallyStep [] exNoPipeLine) exNoPipeLine = 1 := by
  have h := c9_no_pipe_line_tallied exNoPipeLine
  refine ⟨h.1 (by decide), ?_⟩
  rw [h.2.2 (by decide) (by decide) []]
  rfl

/-- C10: the `topusers` tally is order-insensitive — two result sets
carrying the same multiset of log lines (days permuted or lines
redistributed) yield equal identifier-to-count mappings; the tally never
consults the sorted day list. -/
theorem c10_tally_order_insensitive (rd1 rd2 : List (String × List String))
    (h : List.Perm (rd1.flatMap Prod.snd) (rd2.flatMap Prod.snd)) :
    ∀ u : String, dictGetNat (tallyAll rd1) u = dictGetNat (tallyAll rd2) u := by
  intro u
  rw [dictGetNat_tallyAll, dictGetNat_tallyAll]
  by_cases hu : u = emptyStr
  · simp [hu]
  · rw [if_neg hu, if_neg hu]
    exact h.countP_eq _

/-- Witness for C10: the two example layouts of the same lines agree on the
count of `alice`. -/
theorem c10_witness :
    dictGetNat (tallyAll exRD10a) aliceId = dictGetNat (tallyAll exRD10b) aliceId :=
  c10_tally_order_insensitive exRD10a exRD10b (by decide) aliceId

/-- C1 (code bug): on a fully valid invocation, `logsearch` never hands any
buffer to `respondHTML` — bounded or not — because it crashes with
`UnboundLocalError` on the local name `html` right after the search query,
so the claimed `MAX_BUF_LEN` bound on the emitted buffer is about an
emission that never happens. -/
theorem c1_logsearch_no_buffer_emitted :
    emissions (logsearch exMsgC1).events = [] ∧
    (logsearch exMsgC1).crash = some (PyError.unboundLocal localNameHtml) := by
  decide

/-- C2 (code bug): `logsearch` does not always terminate by emitting a
response — on the valid invocation `exMsgC2` it emits nothing and an
exception propagates to the caller. -/
theorem c2_logsearch_exception_propagates :
    (logsearch exMsgC2).crash ≠ none ∧
    emissions (logsearch exMsgC2).events = [] := by
  decide

/-- C3 (code bug): the descending append-until-full day loop is never
executed — `logsearch` on a three-day result set crashes immediately after
the search query, before processing any day, so no truncation behaviour
exists to compare against the claim. -/
theorem c3_logsearch_day_loop_unreached :
    logsearch exMsgC3 =
      ⟨[ Event.search (logsearchRoomID exMsgC3) (some emptyStr) [ emptyStr ] none ],
        some (PyError.unboundLocal localNameHtml)⟩ := by
  decide

/-- C8 (code bug): on a fully valid invocation the success path of
`logsearch` performs exactly one event — the search query — and then the
read of the unbound local `html` (shadowing the imported module because of
the later list assignment) raises before any HTML is built, so the handler
makes zero response emissions instead of the claimed single nested-details
HTML emission. -/
theorem c8_logsearch_no_html_response :
    logsearch exMsgC8 =
      ⟨[ Event.search (logsearchRoomID exMsgC8) (some emptyStr) [ emptyStr ] none ],
        some (PyError.unboundLocal localNameHtml)⟩ ∧
    emissions (logsearch exMsgC8).events = [] ∧
    (∀ e ∈ (logsearch exMsgC8).events, isEmission e = false) := by
  decide
